import Mathlib

/-!
Shallow embedding of the `ArangoDB` client wrapper (`arango/arango.py`).

The wrapper issues HTTP requests through a `Connection` and keeps a cache
mapping database names to `Database` handles.  We model the remote server as
a function from requests to responses, the parsed JSON bodies as a small
`JValue` type, Python exceptions as an explicit error type carried in
`Except`, and the Python `dict` used for the database cache as an
insertion-ordered association list.  Object identity of `Database` handles
(Python `is`) is modelled by a `stamp : Nat` field: each construction of a
handle consumes a fresh stamp from a counter in the client state, so two
handles are the same instance exactly when their stamps agree.
-/

/-- Parsed JSON value, as returned in `Response.obj` by the `Connection`
collaborator. -/
inductive JValue where
  | jstr (s : String)
  | jnum (n : Int)
  | jbool (b : Bool)
  | jarr (elems : List JValue)
  | jobj (fields : List (String × JValue))
  | jnull
  deriving Repr

/-- Python dictionary lookup `fields[k]` on a JSON object field list,
returning `none` where Python would raise `KeyError`. -/
def lookupField : List (String × JValue) → String → Option JValue
  | [], _ => none
  | (k2, v) :: rest, k => if k2 = k then some v else lookupField rest k

/-- Models `res.obj[key]`: field access on a JSON object, `none` where Python
raises (missing key, or indexing a non-object). -/
def JValue.getField : JValue → String → Option JValue
  | .jobj fields, k => lookupField fields k
  | _, _ => none

/-- Reads a JSON value as a string, as the response bodies carry names. -/
def jstrOf : JValue → Option String
  | .jstr s => some s
  | _ => none

/-- Reads a list of JSON values as a list of strings. -/
def strListOf : List JValue → Option (List String)
  | [] => some []
  | v :: rest =>
    match jstrOf v with
    | none => none
    | some s =>
      match strListOf rest with
      | none => none
      | some ss => some (s :: ss)

/-- Models iterating a JSON `result` array as database names (as
`set(self.databases["all"])` does); `none` where Python raises. -/
def JValue.asStrList : JValue → Option (List String)
  | .jarr elems => strListOf elems
  | _ => none

/-- HTTP method of a request issued by the wrapper. -/
inductive Method where
  | get
  | post
  | httpDelete
  | head
  deriving Repr, DecidableEq

/-- A request handed to the `Connection` collaborator: method, path and
the optional body dictionary serialized to JSON. -/
structure Request where
  method : Method
  path : String
  data : Option (List (String × JValue))
  deriving Repr

/-- Response object exposed by `Connection`: status code, reason phrase and
parsed JSON body (`obj`; ignored for HEAD). -/
structure Response where
  status_code : Nat
  reason : String
  obj : JValue
  deriving Repr

/-- The remote server, modelled as a pure request handler. -/
def Server : Type := Request → Response

/-- Python exceptions raised by the wrapper: the `Arango*Error` taxonomy from
`arango.exceptions`, plus `builtinError` for Python builtin exceptions such
as `KeyError`/`TypeError` raised while reading a malformed body. -/
inductive PyErr where
  | arangoConnectionError (message : String)
  | arangoVersionError (res : Response)
  | arangoDatabaseListError (res : Response)
  | arangoDatabaseNotFoundError (name : String)
  | arangoDatabaseCreateError (res : Response)
  | arangoDatabaseDeleteError (res : Response)
  | builtinError (message : String)
  deriving Repr

/-- The `Connection` collaborator state: transfer parameters plus the
optional database name the connection is scoped to. -/
structure Connection where
  protocol : String
  host : String
  port : Nat
  username : Option String
  password : Option String
  db_name : Option String
  deriving Repr, DecidableEq

/-- A `Database` handle: its name and its own scoped `Connection`.  The
`stamp` field models Python object identity (see module docstring). -/
structure Database where
  name : String
  conn : Connection
  stamp : Nat
  deriving Repr, DecidableEq

/-- State of an `ArangoDB` client object: constructor parameters, the
unscoped connection, the `_database_cache` dict (insertion-ordered
association list), the `_default_database` handle, and the counter feeding
fresh `Database` stamps. -/
structure ClientState where
  protocol : String
  host : String
  port : Nat
  username : Option String
  password : Option String
  conn : Connection
  database_cache : List (String × Database)
  default_database : Database
  nextStamp : Nat
  deriving Repr

/-- Python dict lookup `cache[name]` / membership `name in cache`. -/
def dictGet : List (String × Database) → String → Option Database
  | [], _ => none
  | (k2, d) :: rest, k => if k2 = k then some d else dictGet rest k

/-- The key set of the cache dict. -/
def dictKeys (cache : List (String × Database)) : List String :=
  cache.map Prod.fst

/-- The scoped `Connection` the client builds for a freshly discovered
database: same protocol/host/port/credentials, `db_name` set to the name. -/
def scopedConnection (st : ClientState) (name : String) : Connection :=
  { protocol := st.protocol
    host := st.host
    port := st.port
    username := st.username
    password := st.password
    db_name := some name }

/-- Fresh `Database` handles for the given names, consuming consecutive
identity stamps starting at `stamp`. -/
def freshEntries (st : ClientState) (stamp : Nat) : List String → List (String × Database)
  | [] => []
  | n :: rest => (n, ⟨n, scopedConnection st n, stamp⟩) :: freshEntries st (stamp + 1) rest

/-- The successful body of `_invalidate_database_cache`, given the decoded
`databases["all"]` list: evict cached names absent from the live set, insert
fresh handles for live names not yet cached, leave the rest untouched.
Python iterates the set differences; deletion order does not affect the
resulting dict and we realise the (unspecified) insertion iteration order as
first-occurrence order of the listing. -/
def applyListing (st : ClientState) (allDbs : List String) : ClientState :=
  let real_dbs := allDbs.dedup
  let kept := st.database_cache.filter (fun p => decide (p.1 ∈ real_dbs))
  let toAdd := real_dbs.filter (fun n => decide (n ∉ dictKeys st.database_cache))
  { st with
    database_cache := kept ++ freshEntries st st.nextStamp toAdd
    nextStamp := st.nextStamp + toAdd.length }

/-- The user-scoped listing request `GET /_api/database/user`. -/
def getUserReq : Request := ⟨.get, "/_api/database/user", none⟩

/-- The full listing request `GET /_api/database`. -/
def getAllReq : Request := ⟨.get, "/_api/database", none⟩

/-- Raw result of the `databases` property: the two `result` bodies. -/
structure DbListing where
  user : JValue
  all : JValue
  deriving Repr

/-- The `databases` property: user-scoped listing request, then full listing
request; `ArangoDatabaseListError` carrying the response on any non-200;
`KeyError` where a 200 body lacks `result`.  Returns the issued requests in
order together with the outcome. -/
def databasesProp (srv : Server) : List Request × Except PyErr DbListing :=
  let res := srv getUserReq
  if res.status_code ≠ 200 then
    ([getUserReq], .error (.arangoDatabaseListError res))
  else
    match res.obj.getField "result" with
    | none => ([getUserReq], .error (.builtinError "KeyError: result"))
    | some userDbs =>
      let res2 := srv getAllReq
      if res2.status_code ≠ 200 then
        ([getUserReq, getAllReq], .error (.arangoDatabaseListError res2))
      else
        match res2.obj.getField "result" with
        | none => ([getUserReq, getAllReq], .error (.builtinError "KeyError: result"))
        | some allDbs => ([getUserReq, getAllReq], .ok ⟨userDbs, allDbs⟩)

/-- `_invalidate_database_cache`: fetch `self.databases["all"]`, iterate it
as a set of names (`TypeError` where not an array of names), then reconcile
the cache by `applyListing`.  Errors from the listing propagate. -/
def invalidateDatabaseCache (srv : Server) (st : ClientState) :
    List Request × Except PyErr ClientState :=
  match databasesProp srv with
  | (log, .error e) => (log, .error e)
  | (log, .ok listing) =>
    match listing.all.asStrList with
    | none => (log, .error (.builtinError "TypeError: result not iterable as names"))
    | some allDbs => (log, .ok (applyListing st allDbs))

/-- `db(name)`: return the cached handle on a hit; on a miss invalidate the
cache once, re-check, and raise `ArangoDatabaseNotFoundError(name)` when the
name is still absent. -/
def dbLookup (srv : Server) (st : ClientState) (name : String) :
    List Request × Except PyErr (Database × ClientState) :=
  match dictGet st.database_cache name with
  | some d => ([], .ok (d, st))
  | none =>
    match invalidateDatabaseCache srv st with
    | (log, .error e) => (log, .error e)
    | (log, .ok st2) =>
      match dictGet st2.database_cache name with
      | none => (log, .error (.arangoDatabaseNotFoundError name))
      | some d => (log, .ok (d, st2))

/-- Python truthiness of the `users` argument (`if users`): `None` and empty
containers are falsy. -/
def truthy : JValue → Bool
  | .jstr s => !s.isEmpty
  | .jnum n => n != 0
  | .jbool b => b
  | .jarr elems => !elems.isEmpty
  | .jobj fields => !fields.isEmpty
  | .jnull => false

/-- Truthiness of the optional `users` parameter (default `None`). -/
def truthyOpt : Option JValue → Bool
  | none => false
  | some v => truthy v

/-- The body dict `{"name": name, "users": users} if users else {"name": name}`. -/
def createData (name : String) (users : Option JValue) : List (String × JValue) :=
  if truthyOpt users then
    [("name", JValue.jstr name), ("users", users.getD JValue.jnull)]
  else
    [("name", JValue.jstr name)]

/-- The creation request `POST /_api/database` with the body dict. -/
def createRequest (name : String) (users : Option JValue) : Request :=
  ⟨.post, "/_api/database", some (createData name users)⟩

/-- `create_database(name, users=None)`: post the creation request, raise
`ArangoDatabaseCreateError` on a non-201 response, invalidate the cache on
success. -/
def create_database (srv : Server) (st : ClientState) (name : String)
    (users : Option JValue) : List Request × Except PyErr ClientState :=
  let req := createRequest name users
  let res := srv req
  if res.status_code ≠ 201 then
    ([req], .error (.arangoDatabaseCreateError res))
  else
    match invalidateDatabaseCache srv st with
    | (log, .error e) => (req :: log, .error e)
    | (log, .ok st2) => (req :: log, .ok st2)

/-- The deletion request `DELETE /_api/database/{name}`. -/
def deleteRequest (name : String) : Request :=
  ⟨.httpDelete, "/_api/database/" ++ name, none⟩

/-- `delete_database(name)`: issue the deletion request, raise
`ArangoDatabaseDeleteError` on a non-200 response, invalidate the cache on
success. -/
def delete_database (srv : Server) (st : ClientState) (name : String) :
    List Request × Except PyErr ClientState :=
  let req := deleteRequest name
  let res := srv req
  if res.status_code ≠ 200 then
    ([req], .error (.arangoDatabaseDeleteError res))
  else
    match invalidateDatabaseCache srv st with
    | (log, .error e) => (req :: log, .error e)
    | (log, .ok st2) => (req :: log, .ok st2)

/-- The connectivity check request `HEAD /_api/version`. -/
def versionHeadReq : Request := ⟨.head, "/_api/version", none⟩

/-- The `ArangoConnectionError` message built in `__init__`. -/
def connFailMessage (host : String) (res : Response) : String :=
  "Failed to connect to " ++ host ++ " (" ++ toString res.status_code ++ ": "
    ++ res.reason ++ ")"

/-- `ArangoDB.__init__`: build the unscoped connection, issue one HEAD to the
version endpoint, raise `ArangoConnectionError` on a non-200 response, and
otherwise start with an empty database cache and a default `_system`
database handle sharing the unscoped connection. -/
def initClient (srv : Server) (protocol host : String) (port : Nat)
    (username password : Option String) : List Request × Except PyErr ClientState :=
  let conn : Connection := ⟨protocol, host, port, username, password, none⟩
  let res := srv versionHeadReq
  if res.status_code ≠ 200 then
    ([versionHeadReq], .error (.arangoConnectionError (connFailMessage host res)))
  else
    ([versionHeadReq],
     .ok
       { protocol := protocol
         host := host
         port := port
         username := username
         password := password
         conn := conn
         database_cache := []
         default_database := ⟨"_system", conn, 0⟩
         nextStamp := 1 })

/-- The server listing responses are 200 and carry `result` arrays decoding
to `U` (user-scoped) and `A` (all). -/
def listingOK (srv : Server) (U A : List String) : Prop :=
  (srv getUserReq).status_code = 200 ∧
  (srv getUserReq).obj.getField "result" = some (JValue.jarr (U.map JValue.jstr)) ∧
  (srv getAllReq).status_code = 200 ∧
  (srv getAllReq).obj.getField "result" = some (JValue.jarr (A.map JValue.jstr))

/-- Well-formed server: whenever a listing request answers 200 its body has a
`result` field decoding to a list of names. -/
def wfServer (srv : Server) : Prop :=
  ((srv getUserReq).status_code = 200 →
    ∃ v, (srv getUserReq).obj.getField "result" = some v) ∧
  ((srv getAllReq).status_code = 200 →
    ∃ A : List String,
      (srv getAllReq).obj.getField "result" = some (JValue.jarr (A.map JValue.jstr)))

/-- Cache well-formedness: every cache entry stores a handle named by its key
whose connection is scoped to exactly that name with the parameters of the
client. -/
def cacheWF (st : ClientState) : Prop :=
  ∀ p ∈ st.database_cache, p.2.name = p.1 ∧ p.2.conn = scopedConnection st p.1

/-- A demo server: both listing endpoints answer 200 with
`{result: ["_system", "foo"]}`, POSTs answer 201, everything else 200. -/
def demoSrv : Server := fun req =>
  if req.method = Method.post then
    ⟨201, "Created", .jobj [("result", .jbool true)]⟩
  else if req.path = "/_api/database/user" ∨ req.path = "/_api/database" then
    ⟨200, "OK", .jobj [("result", .jarr [.jstr "_system", .jstr "foo"])]⟩
  else
    ⟨200, "OK", .jobj [("version", .jstr "2.2.1")]⟩

/-- A broken server answering 500 to every request. -/
def errSrv : Server := fun _ => ⟨500, "Internal Server Error", JValue.jnull⟩

/-- A server answering 503 to every request (in particular the version HEAD). -/
def srv503 : Server := fun _ => ⟨503, "Service Unavailable", JValue.jnull⟩

/-- The unscoped demo connection. -/
def demoConn : Connection := ⟨"http", "localhost", 8529, none, none, none⟩

/-- A freshly constructed demo client with an empty cache. -/
def demoState : ClientState :=
  { protocol := "http"
    host := "localhost"
    port := 8529
    username := none
    password := none
    conn := demoConn
    database_cache := []
    default_database := ⟨"_system", demoConn, 0⟩
    nextStamp := 1 }

/-- A cached handle for the `foo` database. -/
def fooHandle : Database := ⟨"foo", ⟨"http", "localhost", 8529, none, none, some "foo"⟩, 1⟩

/-- A demo client whose cache already holds `foo`. -/
def demoStateCached : ClientState :=
  { demoState with database_cache := [("foo", fooHandle)], nextStamp := 2 }

/-! ### Helper lemmas about decoding and the cache dictionary -/

/-- Decoding a literal array of strings succeeds. -/
theorem strListOf_map (U : List String) : strListOf (U.map JValue.jstr) = some U := by
  induction U with
  | nil => rfl
  | cons s rest ih => simp [strListOf, jstrOf, ih]

/-- A `result` array of names decodes to those names in order. -/
theorem asStrList_map (A : List String) :
    (JValue.jarr (A.map JValue.jstr)).asStrList = some A := by
  simp [JValue.asStrList, strListOf_map]

/-- Under good listing responses, `databases` issues the two listing requests
in order and returns the two raw bodies. -/
theorem databasesProp_ok {srv : Server} {U A : List String} (h : listingOK srv U A) :
    databasesProp srv =
      ([getUserReq, getAllReq],
       .ok ⟨JValue.jarr (U.map JValue.jstr), JValue.jarr (A.map JValue.jstr)⟩) := by
  obtain ⟨h1, h2, h3, h4⟩ := h
  simp [databasesProp, h1, h2, h3, h4]

/-- Under good listing responses, cache invalidation issues the two listing
requests and reconciles via `applyListing` with the decoded names. -/
theorem invalidateDatabaseCache_ok {srv : Server} {U A : List String}
    (st : ClientState) (h : listingOK srv U A) :
    invalidateDatabaseCache srv st = ([getUserReq, getAllReq], .ok (applyListing st A)) := by
  simp [invalidateDatabaseCache, databasesProp_ok h, asStrList_map]

/-- Dict lookup in a key-filtered dict. -/
theorem dictGet_filter (cache : List (String × Database)) (q : String → Bool) (n : String) :
    dictGet (cache.filter fun p => q p.1) n = if q n then dictGet cache n else none := by
  induction cache with
  | nil => simp [dictGet]
  | cons p rest ih =>
    obtain ⟨k, d⟩ := p
    by_cases hk : k = n
    · subst hk
      by_cases hq : q k <;> simp [List.filter_cons, hq, dictGet, ih]
    · by_cases hq : q k <;> simp [List.filter_cons, hq, dictGet, hk, ih]

/-- Dict lookup in an appended dict, hit in the left part. -/
theorem dictGet_append_some {c1 : List (String × Database)} {n : String} {d : Database}
    (c2 : List (String × Database)) (h : dictGet c1 n = some d) :
    dictGet (c1 ++ c2) n = some d := by
  induction c1 with
  | nil => simp [dictGet] at h
  | cons p rest ih =>
    obtain ⟨k, e⟩ := p
    by_cases hk : k = n <;> simp [dictGet, hk] at h ⊢
    · exact h
    · exact ih h

/-- Dict lookup in an appended dict, miss in the left part. -/
theorem dictGet_append_none {c1 : List (String × Database)} {n : String}
    (c2 : List (String × Database)) (h : dictGet c1 n = none) :
    dictGet (c1 ++ c2) n = dictGet c2 n := by
  induction c1 with
  | nil => simp [dictGet]
  | cons p rest ih =>
    obtain ⟨k, e⟩ := p
    by_cases hk : k = n <;> simp [dictGet, hk] at h ⊢
    exact ih h

/-- A name is a key of the dict exactly when its lookup succeeds. -/
theorem mem_dictKeys_iff (cache : List (String × Database)) (n : String) :
    n ∈ dictKeys cache ↔ ∃ d, dictGet cache n = some d := by
  induction cache with
  | nil => simp [dictKeys, dictGet]
  | cons p rest ih =>
    obtain ⟨k, d⟩ := p
    by_cases hk : k = n
    · subst hk; simp [dictKeys, dictGet]
    · simp [dictKeys, dictGet, hk, Ne.symm hk] at ih ⊢
      exact ih

/-- Lookup of a name outside the fresh batch misses the fresh entries. -/
theorem dictGet_freshEntries_not_mem (st : ClientState) :
    ∀ (names : List String) (s : Nat) (n : String), n ∉ names →
      dictGet (freshEntries st s names) n = none := by
  intro names
  induction names with
  | nil => intro s n _; rfl
  | cons m rest ih =>
    intro s n h
    rw [List.mem_cons] at h
    push_neg at h
    obtain ⟨h1, h2⟩ := h
    simp [freshEntries, dictGet, Ne.symm h1, ih (s + 1) n h2]

/-- Lookup of a fresh name finds a freshly constructed handle, scoped to the
name, with an identity stamp at or above the starting counter. -/
theorem dictGet_freshEntries_mem (st : ClientState) :
    ∀ (names : List String) (s : Nat) (n : String), n ∈ names →
      ∃ k, dictGet (freshEntries st s names) n = some ⟨n, scopedConnection st n, k⟩ ∧
        s ≤ k := by
  intro names
  induction names with
  | nil => intro s n h; cases h
  | cons m rest ih =>
    intro s n h
    by_cases hm : m = n
    · subst hm
      exact ⟨s, by simp [freshEntries, dictGet], le_refl s⟩
    · have h2 : n ∈ rest := by
        rcases List.mem_cons.mp h with h3 | h3
        · exact absurd h3.symm hm
        · exact h3
      obtain ⟨k, hk, hs⟩ := ih (s + 1) n h2
      exact ⟨k, by simp [freshEntries, dictGet, hm, hk], le_trans (Nat.le_succ s) hs⟩

/-- Every fresh entry is keyed by its handle name and scoped to it. -/
theorem freshEntries_shape (st : ClientState) :
    ∀ (names : List String) (s : Nat) (p : String × Database),
      p ∈ freshEntries st s names →
      p.2.name = p.1 ∧ p.2.conn = scopedConnection st p.1 := by
  intro names
  induction names with
  | nil => intro s p hp; cases hp
  | cons m rest ih =>
    intro s p hp
    rcases List.mem_cons.mp hp with h | h
    · subst h; exact ⟨rfl, rfl⟩
    · exact ih (s + 1) p h

/-! ### Characterisation of one cache reconciliation -/

/-- Reconciliation leaves names absent from the listing out of the cache. -/
theorem applyListing_lookup_not_mem {st : ClientState} {A : List String} {n : String}
    (h : n ∉ A) : dictGet (applyListing st A).database_cache n = none := by
  have hd : n ∉ A.dedup := fun hh => h (List.mem_dedup.mp hh)
  have hfil :
      dictGet (st.database_cache.filter fun p => decide (p.1 ∈ A.dedup)) n = none := by
    rw [dictGet_filter st.database_cache (fun k => decide (k ∈ A.dedup)) n]
    simp [hd]
  simp only [applyListing]
  rw [dictGet_append_none _ hfil]
  apply dictGet_freshEntries_not_mem
  intro hmem
  exact hd (List.mem_of_mem_filter hmem)

/-- Reconciliation leaves an already-cached live name bound to the identical
handle. -/
theorem applyListing_lookup_cached {st : ClientState} {A : List String} {n : String}
    (hA : n ∈ A) (hc : n ∈ dictKeys st.database_cache) :
    dictGet (applyListing st A).database_cache n = dictGet st.database_cache n := by
  have hd : n ∈ A.dedup := List.mem_dedup.mpr hA
  obtain ⟨d, hdg⟩ := (mem_dictKeys_iff _ _).mp hc
  have hfil :
      dictGet (st.database_cache.filter fun p => decide (p.1 ∈ A.dedup)) n = some d := by
    rw [dictGet_filter st.database_cache (fun k => decide (k ∈ A.dedup)) n]
    simp [hd, hdg]
  simp only [applyListing]
  rw [dictGet_append_some _ hfil, hdg]

/-- Reconciliation binds a live name that was not cached to a freshly
constructed handle scoped to that name. -/
theorem applyListing_lookup_new {st : ClientState} {A : List String} {n : String}
    (hA : n ∈ A) (hc : n ∉ dictKeys st.database_cache) :
    ∃ k, dictGet (applyListing st A).database_cache n =
        some ⟨n, scopedConnection st n, k⟩ ∧ st.nextStamp ≤ k := by
  have hd : n ∈ A.dedup := List.mem_dedup.mpr hA
  have hfil :
      dictGet (st.database_cache.filter fun p => decide (p.1 ∈ A.dedup)) n = none := by
    rw [dictGet_filter st.database_cache (fun k => decide (k ∈ A.dedup)) n]
    rcases hg : dictGet st.database_cache n with _ | d
    · simp [hg]
    · exact absurd ((mem_dictKeys_iff _ _).mpr ⟨d, hg⟩) hc
  have hmemAdd : n ∈ A.dedup.filter fun m => decide (m ∉ dictKeys st.database_cache) :=
    List.mem_filter.mpr ⟨hd, by simpa using hc⟩
  obtain ⟨k, hk, hs⟩ := dictGet_freshEntries_mem st _ st.nextStamp n hmemAdd
  refine ⟨k, ?_, hs⟩
  simp only [applyListing]
  rw [dictGet_append_none _ hfil]
  exact hk

/-- After reconciliation the cached names are exactly the listed ones. -/
theorem mem_dictKeys_applyListing {st : ClientState} {A : List String} {n : String} :
    n ∈ dictKeys (applyListing st A).database_cache ↔ n ∈ A := by
  constructor
  · intro h
    by_contra hA
    obtain ⟨d, hd⟩ := (mem_dictKeys_iff _ _).mp h
    rw [applyListing_lookup_not_mem hA] at hd
    cases hd
  · intro hA
    by_cases hc : n ∈ dictKeys st.database_cache
    · obtain ⟨d, hd⟩ := (mem_dictKeys_iff _ _).mp hc
      refine (mem_dictKeys_iff _ _).mpr ⟨d, ?_⟩
      rw [applyListing_lookup_cached hA hc, hd]
    · obtain ⟨k, hk, _⟩ := applyListing_lookup_new hA hc
      exact (mem_dictKeys_iff _ _).mpr ⟨_, hk⟩

/-- Reconciliation against a listing that already matches the cached key set
leaves the cache dict unchanged. -/
theorem applyListing_cache_stable {st2 : ClientState} {A : List String}
    (hkeys : ∀ n, n ∈ dictKeys st2.database_cache ↔ n ∈ A) :
    (applyListing st2 A).database_cache = st2.database_cache := by
  have h1 : (st2.database_cache.filter fun p => decide (p.1 ∈ A.dedup))
      = st2.database_cache := by
    apply List.filter_eq_self.mpr
    intro p hp
    have hkey : p.1 ∈ dictKeys st2.database_cache := List.mem_map_of_mem Prod.fst hp
    simp [List.mem_dedup, (hkeys p.1).mp hkey]
  have h2 : (A.dedup.filter fun n => decide (n ∉ dictKeys st2.database_cache))
      = [] := by
    apply List.filter_eq_nil_iff.mpr
    intro n hn
    simp [(hkeys n).mpr (List.mem_dedup.mp hn)]
  simp only [applyListing, h1, h2, freshEntries, List.append_nil]

/-! ### Error and success shapes of the stateful operations -/

/-- Against a well-formed server, the only failure of the `databases`
property is `ArangoDatabaseListError`. -/
theorem databasesProp_error_shape {srv : Server} {e : PyErr} (hwf : wfServer srv)
    (h : (databasesProp srv).2 = .error e) : ∃ r, e = .arangoDatabaseListError r := by
  by_cases h1 : (srv getUserReq).status_code = 200
  · obtain ⟨v, hv⟩ := hwf.1 h1
    by_cases h2 : (srv getAllReq).status_code = 200
    · obtain ⟨A, hA⟩ := hwf.2 h2
      simp [databasesProp, h1, h2, hv, hA] at h
    · simp [databasesProp, h1, h2, hv] at h
      exact ⟨srv getAllReq, h.symm⟩
  · simp [databasesProp, h1] at h
    exact ⟨srv getUserReq, h.symm⟩

/-- Against a well-formed server, the only failure of cache invalidation is
`ArangoDatabaseListError` propagated from the listing. -/
theorem invalidate_error_shape {srv : Server} {st : ClientState} {e : PyErr}
    (hwf : wfServer srv) (h : (invalidateDatabaseCache srv st).2 = .error e) :
    ∃ r, e = .arangoDatabaseListError r := by
  by_cases h1 : (srv getUserReq).status_code = 200
  · obtain ⟨v, hv⟩ := hwf.1 h1
    by_cases h2 : (srv getAllReq).status_code = 200
    · obtain ⟨A, hA⟩ := hwf.2 h2
      have hdb : databasesProp srv =
          ([getUserReq, getAllReq], .ok ⟨v, JValue.jarr (A.map JValue.jstr)⟩) := by
        simp [databasesProp, h1, h2, hv, hA]
      rw [invalidateDatabaseCache, hdb] at h
      simp [asStrList_map] at h
    · have hdb : databasesProp srv =
          ([getUserReq, getAllReq], .error (.arangoDatabaseListError (srv getAllReq))) := by
        simp [databasesProp, h1, h2, hv]
      rw [invalidateDatabaseCache, hdb] at h
      simp at h
      exact ⟨srv getAllReq, h.symm⟩
  · have hdb : databasesProp srv =
        ([getUserReq], .error (.arangoDatabaseListError (srv getUserReq))) := by
      simp [databasesProp, h1]
    rw [invalidateDatabaseCache, hdb] at h
    simp at h
    exact ⟨srv getUserReq, h.symm⟩

/-- Every successful cache invalidation is a reconciliation against some
decoded listing. -/
theorem invalidate_ok_shape {srv : Server} {st st2 : ClientState}
    (h : (invalidateDatabaseCache srv st).2 = .ok st2) :
    ∃ A, st2 = applyListing st A := by
  rw [invalidateDatabaseCache] at h
  rcases hdb : databasesProp srv with ⟨log, res⟩
  rw [hdb] at h
  cases res with
  | error e => simp at h
  | ok listing =>
    rcases hs : listing.all.asStrList with _ | A
    · simp [hs] at h
    · simp [hs] at h
      exact ⟨A, h.symm⟩

/-- Reconciliation preserves cache well-formedness. -/
theorem cacheWF_applyListing {st : ClientState} {A : List String} (h : cacheWF st) :
    cacheWF (applyListing st A) := by
  intro p hp
  have hconn : ∀ m, scopedConnection (applyListing st A) m = scopedConnection st m :=
    fun _ => rfl
  rw [hconn]
  simp only [applyListing] at hp
  rcases List.mem_append.mp hp with hk | hf
  · exact h p (List.mem_of_mem_filter hk)
  · exact freshEntries_shape st _ st.nextStamp p hf

/-- A successful `db` lookup either leaves the state unchanged (cache hit) or
returns the state of one reconciliation. -/
theorem dbLookup_ok_shape {srv : Server} {st st2 : ClientState} {name : String}
    {d : Database} (h : (dbLookup srv st name).2 = .ok (d, st2)) :
    st2 = st ∨ ∃ A, st2 = applyListing st A := by
  rw [dbLookup] at h
  rcases hg : dictGet st.database_cache name with _ | d0
  · rw [hg] at h
    rcases hinv : invalidateDatabaseCache srv st with ⟨log, res⟩
    rw [hinv] at h
    cases res with
    | error e => simp at h
    | ok stI =>
      rcases hg2 : dictGet stI.database_cache name with _ | d1
      · simp [hg2] at h
      · simp [hg2] at h
        right
        obtain ⟨A, hA⟩ := invalidate_ok_shape (show (invalidateDatabaseCache srv st).2 = .ok stI by rw [hinv])
        exact ⟨A, h.2.symm ▸ hA⟩
  · rw [hg] at h
    simp at h
    exact Or.inl h.2.symm

/-- A successful `create_database` returns the state of one reconciliation. -/
theorem create_ok_shape {srv : Server} {st st2 : ClientState} {name : String}
    {users : Option JValue} (h : (create_database srv st name users).2 = .ok st2) :
    ∃ A, st2 = applyListing st A := by
  rw [create_database] at h
  by_cases hs : (srv (createRequest name users)).status_code = 201
  · rcases hinv : invalidateDatabaseCache srv st with ⟨log, res⟩
    rw [hinv] at h  -- may fail: h mentions the match scrutinee
    cases res with
    | error e => simp [hs] at h
    | ok stI =>
      simp [hs] at h
      obtain ⟨A, hA⟩ := invalidate_ok_shape (show (invalidateDatabaseCache srv st).2 = .ok stI by rw [hinv])
      exact ⟨A, h ▸ hA⟩
  · simp [hs] at h

/-- A successful `delete_database` returns the state of one reconciliation. -/
theorem delete_ok_shape {srv : Server} {st st2 : ClientState} {name : String}
    (h : (delete_database srv st name).2 = .ok st2) :
    ∃ A, st2 = applyListing st A := by
  rw [delete_database] at h
  by_cases hs : (srv (deleteRequest name)).status_code = 200
  · rcases hinv : invalidateDatabaseCache srv st with ⟨log, res⟩
    rw [hinv] at h
    cases res with
    | error e => simp [hs] at h
    | ok stI =>
      simp [hs] at h
      obtain ⟨A, hA⟩ := invalidate_ok_shape (show (invalidateDatabaseCache srv st).2 = .ok stI by rw [hinv])
      exact ⟨A, h ▸ hA⟩
  · simp [hs] at h

/-! ### Claims -/

/-- C1 counterexample: the claim says db(name) fails only with
DatabaseNotFoundError, but with the listing endpoint answering 500 a cache
miss in db makes the embedded rebuild raise ArangoDatabaseListError, the
kind designated for the databases listing operation. -/
theorem c1_counterexample :
    (dbLookup errSrv demoState "x").2 =
      .error (.arangoDatabaseListError ⟨500, "Internal Server Error", JValue.jnull⟩) ∧
    (dbLookup errSrv demoState "x").2 ≠
      .error (.arangoDatabaseNotFoundError "x") := by
  refine ⟨rfl, fun h => ?_⟩
  have h2 : Except.error (ε := PyErr) (α := Database × ClientState)
      (.arangoDatabaseListError ⟨500, "Internal Server Error", JValue.jnull⟩) =
      .error (.arangoDatabaseNotFoundError "x") := h
  injection h2 with h3
  exact PyErr.noConfusion h3

/-- C1 (amended): against a well-formed server, each failing operation
raises its designated error kind or an ArangoDatabaseListError propagated
from the cache rebuild it triggers: db fails only with
DatabaseNotFoundError or DatabaseListError, createDatabase only with
DatabaseCreateError or DatabaseListError, deleteDatabase only with
DatabaseDeleteError or DatabaseListError. -/
theorem c1_theorem (srv : Server) (hwf : wfServer srv) (st : ClientState)
    (name : String) (users : Option JValue) :
    (∀ e, (dbLookup srv st name).2 = .error e →
      e = .arangoDatabaseNotFoundError name ∨ ∃ r, e = .arangoDatabaseListError r) ∧
    (∀ e, (create_database srv st name users).2 = .error e →
      e = .arangoDatabaseCreateError (srv (createRequest name users)) ∨
        ∃ r, e = .arangoDatabaseListError r) ∧
    (∀ e, (delete_database srv st name).2 = .error e →
      e = .arangoDatabaseDeleteError (srv (deleteRequest name)) ∨
        ∃ r, e = .arangoDatabaseListError r) := by
  refine ⟨fun e he => ?_, fun e he => ?_, fun e he => ?_⟩
  · rw [dbLookup] at he
    rcases hg : dictGet st.database_cache name with _ | d
    · rw [hg] at he
      rcases hinv : invalidateDatabaseCache srv st with ⟨log, res⟩
      rw [hinv] at he
      cases res with
      | error e2 =>
        simp at he
        subst he
        exact Or.inr (invalidate_error_shape hwf (by rw [hinv]))
      | ok stI =>
        rcases hg2 : dictGet stI.database_cache name with _ | d1
        · simp [hg2] at he
          exact Or.inl he.symm
        · simp [hg2] at he
    · rw [hg] at he
      simp at he
  · rw [create_database] at he
    by_cases hs : (srv (createRequest name users)).status_code = 201
    · rcases hinv : invalidateDatabaseCache srv st with ⟨log, res⟩
      rw [hinv] at he
      cases res with
      | error e2 =>
        simp [hs] at he
        subst he
        exact Or.inr (invalidate_error_shape hwf (by rw [hinv]))
      | ok stI => simp [hs] at he
    · simp [hs] at he
      exact Or.inl he.symm
  · rw [delete_database] at he
    by_cases hs : (srv (deleteRequest name)).status_code = 200
    · rcases hinv : invalidateDatabaseCache srv st with ⟨log, res⟩
      rw [hinv] at he
      cases res with
      | error e2 =>
        simp [hs] at he
        subst he
        exact Or.inr (invalidate_error_shape hwf (by rw [hinv]))
      | ok stI => simp [hs] at he
    · simp [hs] at he
      exact Or.inl he.symm

/-- C1 witness: the amended taxonomy instantiated on the broken server. -/
theorem c1_witness :
    PyErr.arangoDatabaseListError ⟨500, "Internal Server Error", JValue.jnull⟩ =
        .arangoDatabaseNotFoundError "x" ∨
      ∃ r, PyErr.arangoDatabaseListError ⟨500, "Internal Server Error", JValue.jnull⟩ =
        .arangoDatabaseListError r :=
  (c1_theorem errSrv
    ⟨fun h => absurd h (by decide), fun h => absurd h (by decide)⟩
    demoState "x" none).1 _ rfl

/-- C2 counterexample: a users value IS supplied (the empty users dict), yet
the posted body is exactly the name field with users omitted, because the
code tests Python truthiness of users rather than its presence. -/
theorem c2_counterexample :
    (create_database errSrv demoState "x" (some (JValue.jobj []))).1 =
      [⟨Method.post, "/_api/database", some [("name", JValue.jstr "x")]⟩] ∧
    lookupField (createData "x" (some (JValue.jobj []))) "users" = none :=
  ⟨rfl, rfl⟩

/-- C2 (amended): the request createDatabase posts first is the POST to the
database endpoint whose body carries the users field exactly when the
supplied users value is truthy (non-None and non-empty); when users is not
supplied, or supplied but falsy, the body is exactly the name field. -/
theorem c2_theorem (srv : Server) (st : ClientState) (name : String)
    (users : Option JValue) :
    (create_database srv st name users).1.head? =
      some ⟨Method.post, "/_api/database",
        some (if truthyOpt users then
            [("name", JValue.jstr name), ("users", users.getD JValue.jnull)]
          else [("name", JValue.jstr name)])⟩ ∧
    (lookupField (createData name users) "users").isSome = truthyOpt users := by
  constructor
  · have hhead : (create_database srv st name users).1.head? =
        some (createRequest name users) := by
      rw [create_database]
      rcases hinv : invalidateDatabaseCache srv st with ⟨log, res⟩
      by_cases hs : (srv (createRequest name users)).status_code = 201
      · cases res <;> simp [hs]
      · simp [hs]
    rw [hhead, createRequest, createData]
  · by_cases ht : truthyOpt users <;> simp [createData, lookupField, ht]

/-- C3: db consults the cache first and returns the cached handle with no
request issued on a hit; on a miss it performs exactly one rebuild (the two
listing requests) and re-checks; a name absent from the server listing then
fails with DatabaseNotFoundError(name) after that single rebuild. -/
theorem c3_theorem (srv : Server) (st : ClientState) (n : String) (U A : List String) :
    (∀ d, dictGet st.database_cache n = some d → dbLookup srv st n = ([], .ok (d, st))) ∧
    (dictGet st.database_cache n = none → listingOK srv U A → n ∈ A →
      ∃ d st2, dbLookup srv st n = ([getUserReq, getAllReq], .ok (d, st2))) ∧
    (dictGet st.database_cache n = none → listingOK srv U A → n ∉ A →
      dbLookup srv st n =
        ([getUserReq, getAllReq], .error (.arangoDatabaseNotFoundError n))) := by
  refine ⟨fun d hd => ?_, fun hd hlist hn => ?_, fun hd hlist hn => ?_⟩
  · rw [dbLookup, hd]
  · rw [dbLookup, hd, invalidateDatabaseCache_ok st hlist]
    have hmem : ∃ d, dictGet (applyListing st A).database_cache n = some d := by
      by_cases hc : n ∈ dictKeys st.database_cache
      · obtain ⟨d, hdg⟩ := (mem_dictKeys_iff _ _).mp hc
        exact ⟨d, by rw [applyListing_lookup_cached hn hc, hdg]⟩
      · obtain ⟨k, hk, _⟩ := applyListing_lookup_new hn hc
        exact ⟨_, hk⟩
    obtain ⟨d, hdg⟩ := hmem
    exact ⟨d, applyListing st A, by simp [hdg]⟩
  · rw [dbLookup, hd, invalidateDatabaseCache_ok st hlist]
    simp [applyListing_lookup_not_mem hn]

/-- C3 witness: a cache hit issues nothing; a genuinely absent name fails
with DatabaseNotFoundError after the one rebuild. -/
theorem c3_witness :
    dbLookup demoSrv demoStateCached "foo" = ([], .ok (fooHandle, demoStateCached)) ∧
    dbLookup demoSrv demoState "x" =
      ([getUserReq, getAllReq], .error (.arangoDatabaseNotFoundError "x")) :=
  ⟨(c3_theorem demoSrv demoStateCached "foo" [] []).1 fooHandle rfl,
   (c3_theorem demoSrv demoState "x" ["_system", "foo"] ["_system", "foo"]).2.2 rfl
     ⟨rfl, rfl, rfl, rfl⟩ (by decide)⟩

/-- C4: one cache invalidation evicts exactly the cached names absent from
the live listing, inserts a freshly constructed handle with its own
name-scoped connection for exactly the live names not yet cached, and binds
every name live in both to the identical handle instance as before. -/
theorem c4_theorem (srv : Server) (st : ClientState) (U A : List String)
    (h : listingOK srv U A) :
    ∃ st2, invalidateDatabaseCache srv st = ([getUserReq, getAllReq], .ok st2) ∧
      (∀ n, n ∉ A → dictGet st2.database_cache n = none) ∧
      (∀ n, n ∈ A → n ∈ dictKeys st.database_cache →
        dictGet st2.database_cache n = dictGet st.database_cache n) ∧
      (∀ n, n ∈ A → n ∉ dictKeys st.database_cache →
        ∃ k, dictGet st2.database_cache n = some ⟨n, scopedConnection st n, k⟩ ∧
          st.nextStamp ≤ k) := by
  refine ⟨applyListing st A, invalidateDatabaseCache_ok st h, ?_, ?_, ?_⟩
  · exact fun n hn => applyListing_lookup_not_mem hn
  · exact fun n hA hc => applyListing_lookup_cached hA hc
  · exact fun n hA hc => applyListing_lookup_new hA hc

/-- C4 witness: rebuilding a cache that already holds foo against the
listing keeps the identical foo handle and inserts a fresh one only
for the system database. -/
theorem c4_witness :
    ∃ st2, invalidateDatabaseCache demoSrv demoStateCached =
        ([getUserReq, getAllReq], .ok st2) ∧
      dictGet st2.database_cache "foo" = some fooHandle := by
  obtain ⟨st2, h1, h2, h3, h4⟩ :=
    c4_theorem demoSrv demoStateCached ["_system", "foo"] ["_system", "foo"]
      ⟨rfl, rfl, rfl, rfl⟩
  refine ⟨st2, h1, ?_⟩
  rw [h3 "foo" (by decide) (by decide)]
  rfl

/-- C5: after a successful createDatabase whose triggered rebuild sees the
new name in the listing, a subsequent db on that name is a pure cache hit:
it returns a handle and issues no request at all, against any server. -/
theorem c5_theorem (srv srv2 : Server) (st : ClientState) (U A : List String)
    (users : Option JValue) (x : String)
    (hs : (srv (createRequest x users)).status_code = 201)
    (hlist : listingOK srv U A) (hx : x ∈ A) :
    ∃ st2, (create_database srv st x users).2 = .ok st2 ∧
      ∃ d, dbLookup srv2 st2 x = ([], .ok (d, st2)) := by
  have hcr : create_database srv st x users =
      (createRequest x users :: [getUserReq, getAllReq], .ok (applyListing st A)) := by
    rw [create_database, invalidateDatabaseCache_ok st hlist]
    simp [hs]
  have hmem : ∃ d, dictGet (applyListing st A).database_cache x = some d := by
    by_cases hc : x ∈ dictKeys st.database_cache
    · obtain ⟨d, hdg⟩ := (mem_dictKeys_iff _ _).mp hc
      exact ⟨d, by rw [applyListing_lookup_cached hx hc, hdg]⟩
    · obtain ⟨k, hk, _⟩ := applyListing_lookup_new hx hc
      exact ⟨_, hk⟩
  obtain ⟨d, hd⟩ := hmem
  exact ⟨applyListing st A, by rw [hcr], d, by rw [dbLookup, hd]⟩

/-- C5 witness: create foo against the demo server, then look it up with a
broken server: the hit comes from the cache, no rebuild happens. -/
theorem c5_witness :
    ∃ st2, (create_database demoSrv demoState "foo" none).2 = .ok st2 ∧
      ∃ d, dbLookup errSrv st2 "foo" = ([], .ok (d, st2)) :=
  c5_theorem demoSrv errSrv demoState ["_system", "foo"] ["_system", "foo"] none "foo"
    rfl ⟨rfl, rfl, rfl, rfl⟩ (by decide)

/-- C6: after a successful deleteDatabase whose rebuild no longer sees the
name, a later db on that name, whose own rebuild also does not see it,
fails with DatabaseNotFoundError(name). -/
theorem c6_theorem (srv srv2 : Server) (st : ClientState) (U A U2 A2 : List String)
    (x : String)
    (hs : (srv (deleteRequest x)).status_code = 200)
    (hlist : listingOK srv U A) (hx : x ∉ A)
    (hlist2 : listingOK srv2 U2 A2) (hx2 : x ∉ A2) :
    ∃ st2, (delete_database srv st x).2 = .ok st2 ∧
      (dbLookup srv2 st2 x).2 = .error (.arangoDatabaseNotFoundError x) := by
  have hdel : delete_database srv st x =
      (deleteRequest x :: [getUserReq, getAllReq], .ok (applyListing st A)) := by
    rw [delete_database, invalidateDatabaseCache_ok st hlist]
    simp [hs]
  refine ⟨applyListing st A, by rw [hdel], ?_⟩
  rw [dbLookup, applyListing_lookup_not_mem hx,
    invalidateDatabaseCache_ok (applyListing st A) hlist2]
  simp [applyListing_lookup_not_mem hx2]

/-- C6 witness: delete x against the demo server (whose listing never held
x), then db x fails with DatabaseNotFoundError x. -/
theorem c6_witness :
    ∃ st2, (delete_database demoSrv demoState "x").2 = .ok st2 ∧
      (dbLookup demoSrv st2 "x").2 = .error (.arangoDatabaseNotFoundError "x") :=
  c6_theorem demoSrv demoSrv demoState ["_system", "foo"] ["_system", "foo"]
    ["_system", "foo"] ["_system", "foo"] "x" rfl ⟨rfl, rfl, rfl, rfl⟩ (by decide)
    ⟨rfl, rfl, rfl, rfl⟩ (by decide)

/-- C7: with the server listing unchanged, running cache invalidation twice
in a row yields the same cache contents as running it once. -/
theorem c7_theorem (srv : Server) (st st1 st2 : ClientState) (U A : List String)
    (hlist : listingOK srv U A)
    (h1 : (invalidateDatabaseCache srv st).2 = .ok st1)
    (h2 : (invalidateDatabaseCache srv st1).2 = .ok st2) :
    st2.database_cache = st1.database_cache := by
  have e1 : applyListing st A = st1 := by
    rw [invalidateDatabaseCache_ok st hlist] at h1
    simpa using h1
  have e2 : applyListing st1 A = st2 := by
    rw [invalidateDatabaseCache_ok st1 hlist] at h2
    simpa using h2
  subst e1
  subst e2
  exact applyListing_cache_stable fun n => mem_dictKeys_applyListing

/-- C7 witness: idempotence instantiated on the demo server and the fresh
demo client. -/
theorem c7_witness :
    (applyListing (applyListing demoState ["_system", "foo"]) ["_system", "foo"]).database_cache =
      (applyListing demoState ["_system", "foo"]).database_cache :=
  c7_theorem demoSrv demoState (applyListing demoState ["_system", "foo"])
    (applyListing (applyListing demoState ["_system", "foo"]) ["_system", "foo"])
    ["_system", "foo"] ["_system", "foo"] ⟨rfl, rfl, rfl, rfl⟩ rfl rfl

/-- C8: the databases property issues the user-scoped listing request then
the full listing request, returns both result arrays in server order, and
fails with DatabaseListError carrying the offending response whenever
either of the two responses is non-200. -/
theorem c8_theorem (srv : Server) (U A : List String) :
    (listingOK srv U A →
      databasesProp srv = ([getUserReq, getAllReq],
        .ok ⟨JValue.jarr (U.map JValue.jstr), JValue.jarr (A.map JValue.jstr)⟩)) ∧
    ((srv getUserReq).status_code ≠ 200 →
      (databasesProp srv).2 = .error (.arangoDatabaseListError (srv getUserReq))) ∧
    ((srv getUserReq).status_code = 200 →
      (∃ v, (srv getUserReq).obj.getField "result" = some v) →
      (srv getAllReq).status_code ≠ 200 →
      (databasesProp srv).2 = .error (.arangoDatabaseListError (srv getAllReq))) := by
  refine ⟨fun h => databasesProp_ok h, fun h => ?_, fun h1 hv h2 => ?_⟩
  · simp [databasesProp, h]
  · obtain ⟨v, hv⟩ := hv
    simp [databasesProp, h1, h2, hv]

/-- C8 witness: the spec scenario (both endpoints answering
result system foo) and a failing first listing. -/
theorem c8_witness :
    databasesProp demoSrv = ([getUserReq, getAllReq],
      .ok ⟨JValue.jarr [.jstr "_system", .jstr "foo"],
           JValue.jarr [.jstr "_system", .jstr "foo"]⟩) ∧
    (databasesProp errSrv).2 =
      .error (.arangoDatabaseListError ⟨500, "Internal Server Error", JValue.jnull⟩) :=
  ⟨(c8_theorem demoSrv ["_system", "foo"] ["_system", "foo"]).1 ⟨rfl, rfl, rfl, rfl⟩,
   (c8_theorem errSrv [] []).2.1 (by decide)⟩

/-- C9: construction performs exactly one request, the HEAD to the version
endpoint; it fails with ConnectionError exactly on a non-200 response; on a
200 response it succeeds with an empty database cache and a default system
database handle sharing the unscoped connection. -/
theorem c9_theorem (srv : Server) (protocol host : String) (port : Nat)
    (username password : Option String) :
    (initClient srv protocol host port username password).1 = [versionHeadReq] ∧
    versionHeadReq.method = Method.head ∧
    ((srv versionHeadReq).status_code ≠ 200 →
      (initClient srv protocol host port username password).2 =
        .error (.arangoConnectionError (connFailMessage host (srv versionHeadReq)))) ∧
    ((srv versionHeadReq).status_code = 200 →
      (initClient srv protocol host port username password).2 =
        .ok { protocol := protocol
              host := host
              port := port
              username := username
              password := password
              conn := ⟨protocol, host, port, username, password, none⟩
              database_cache := []
              default_database := ⟨"_system", ⟨protocol, host, port, username, password, none⟩, 0⟩
              nextStamp := 1 }) := by
  refine ⟨?_, rfl, fun h => ?_, fun h => ?_⟩
  · by_cases h : (srv versionHeadReq).status_code = 200 <;> simp [initClient, h]
  · simp [initClient, h]
  · simp [initClient, h]

/-- C9 witness: a 503 on the version HEAD fails construction with
ConnectionError; a 200 yields the fresh empty-cache client. -/
theorem c9_witness :
    (initClient srv503 "http" "localhost" 8529 none none).2 =
      .error (.arangoConnectionError
        (connFailMessage "localhost" ⟨503, "Service Unavailable", JValue.jnull⟩)) ∧
    (initClient demoSrv "http" "localhost" 8529 none none).2 = .ok demoState :=
  ⟨(c9_theorem srv503 "http" "localhost" 8529 none none).2.2.1 (by decide),
   (c9_theorem demoSrv "http" "localhost" 8529 none none).2.2.2 rfl⟩

/-- C10: construction establishes, and every operation preserves, cache
well-formedness: each cache entry is keyed by the name of its handle and
the connection of that handle is scoped to exactly that name with the
protocol, host, port, username and password of the client. -/
theorem c10_theorem (srv : Server) (st st2 : ClientState) (d : Database)
    (name : String) (users : Option JValue) (protocol host : String) (port : Nat)
    (username password : Option String) :
    ((initClient srv protocol host port username password).2 = .ok st2 → cacheWF st2) ∧
    (cacheWF st → (invalidateDatabaseCache srv st).2 = .ok st2 → cacheWF st2) ∧
    (cacheWF st → (dbLookup srv st name).2 = .ok (d, st2) → cacheWF st2) ∧
    (cacheWF st → (create_database srv st name users).2 = .ok st2 → cacheWF st2) ∧
    (cacheWF st → (delete_database srv st name).2 = .ok st2 → cacheWF st2) := by
  refine ⟨fun h => ?_, fun hwf h => ?_, fun hwf h => ?_, fun hwf h => ?_, fun hwf h => ?_⟩
  · by_cases hs : (srv versionHeadReq).status_code = 200
    · simp [initClient, hs] at h
      intro p hp
      rw [← h] at hp
      cases hp
    · simp [initClient, hs] at h
  · obtain ⟨A, hA⟩ := invalidate_ok_shape h
    exact hA ▸ cacheWF_applyListing hwf
  · rcases dbLookup_ok_shape h with h2 | ⟨A, hA⟩
    · exact h2 ▸ hwf
    · exact hA ▸ cacheWF_applyListing hwf
  · obtain ⟨A, hA⟩ := create_ok_shape h
    exact hA ▸ cacheWF_applyListing hwf
  · obtain ⟨A, hA⟩ := delete_ok_shape h
    exact hA ▸ cacheWF_applyListing hwf

/-- C10 witness: the fresh demo client is well-formed and a rebuild of the
cached demo client stays well-formed. -/
theorem c10_witness :
    cacheWF demoState ∧ cacheWF (applyListing demoStateCached ["_system", "foo"]) :=
  ⟨(c10_theorem demoSrv demoState demoState fooHandle "x" none
      "http" "localhost" 8529 none none).1 rfl,
   (c10_theorem demoSrv demoStateCached
      (applyListing demoStateCached ["_system", "foo"]) fooHandle "x" none
      "http" "localhost" 8529 none none).2.1
     (by
       intro p hp
       have hp2 : p ∈ [("foo", fooHandle)] := hp
       rw [List.mem_singleton] at hp2
       subst hp2
       exact ⟨rfl, rfl⟩)
     rfl⟩
